import Mathlib

/-!
# Verification of the parkingcam detection pipeline (src/parkingcam.py)

Shallow embedding of the resilient acquisition / scheduled-detection /
presence-aggregation core of `parkingcam.py`.  Python floats (timestamps,
thresholds) are modelled as `Rat`; machine-independent Python ints as `Int`
or `Nat`.  Opaque external calls (cv2 grayscale/resize + md5 in
`compute_frame_hash`, the YOLO model call) are parameters of the embedded
functions, exactly as `yolo_model` already is a parameter in the source; a
call that may raise is modelled with `Except`.
-/

namespace Parkingcam

/-- A video frame: `shape[:2] = (height, width)` and an opaque pixel buffer,
as handed around by the source (numpy array). -/
structure Frame where
  height : Nat
  width : Nat
  data : List (List Nat)
deriving DecidableEq, Repr

/-- One YOLO detection box entry: class id and confidence (the box geometry is
opaque to the pipeline, which only reads `boxes.cls`). -/
structure Det where
  classId : Nat
  conf : Rat
deriving DecidableEq, Repr

/-- YOLO `results`: a list of result objects, each carrying its `boxes` list.
The pipeline iterates `for result in results: boxes = result.boxes`. -/
abbrev Dets := List (List Det)

/-- `CAR_STATUS_TRIGGER_CLASSES = [2, 8, 28]` (line 168 of the source). -/
def CAR_STATUS_TRIGGER_CLASSES : List Nat := [2, 8, 28]

/-- The trigger check of lines 1222-1234: scan each result's boxes and set
`car_detected` on the first box whose class id is a trigger class (the
`len(boxes) > 0` guard plus `break` make this an `any` over all boxes). -/
def triggered_by (results : Dets) : Bool :=
  results.any fun boxes =>
    boxes.any fun d => CAR_STATUS_TRIGGER_CLASSES.contains d.classId

/-- The "Ensure valid dimensions" clamp of
`calculate_roi_from_point_quadrant` (lines 1041-1044). -/
def ensure_valid_dimensions (x y width height frame_width frame_height : Int) :
    Int × Int × Int × Int :=
  let x := max 0 (min x (frame_width - 1))
  let y := max 0 (min y (frame_height - 1))
  let width := max 1 (min width (frame_width - x))
  let height := max 1 (min height (frame_height - y))
  (x, y, width, height)

/-- `calculate_roi_from_point_quadrant` (source lines 996-1046): pick the
rectangle between the point and a frame corner according to the quadrant code
(any code other than 1-3 takes the quadrant-4 branch), then clamp it into the
frame. -/
def calculate_roi_from_point_quadrant (point_x point_y : Int) (quadrant : Int)
    (frame_width frame_height : Int) : Int × Int × Int × Int :=
  let (x, y, width, height) :=
    if quadrant = 1 then
      (point_x, (0 : Int), frame_width - point_x, point_y)
    else if quadrant = 2 then
      ((0 : Int), (0 : Int), point_x, point_y)
    else if quadrant = 3 then
      ((0 : Int), point_y, point_x, frame_height - point_y)
    else
      -- quadrant 4, and the `else` fallback for invalid codes (lines 1028-1038)
      (point_x, point_y, frame_width - point_x, frame_height - point_y)
  ensure_valid_dimensions x y width height frame_width frame_height

/-- The ROI clamping done inside `process_cv_detection` (lines 1183-1187) and
`prepare_display_image` (lines 1302-1306): width/height are clamped to the
frame first, then the position is clamped so the region fits. -/
def clamp_roi (roi_x roi_y roi_w roi_h frame_w frame_h : Int) :
    Int × Int × Int × Int :=
  let roi_w := max 1 (min roi_w frame_w)
  let roi_h := max 1 (min roi_h frame_h)
  let roi_x := max 0 (min roi_x (frame_w - roi_w))
  let roi_y := max 0 (min roi_y (frame_h - roi_h))
  (roi_x, roi_y, roi_w, roi_h)

/-- The temporal-smoothing step of `process_cv_detection` (lines 1236-1245):
a raw-negative result is kept positive while `now - last < window`. -/
def temporal_smoothing (car_detected : Bool) (last_car_detection_time : Option Rat)
    (now : Rat) (window : Rat) : Bool :=
  if !car_detected then
    match last_car_detection_time with
    | some t => if now - t < window then true else car_detected
    | none => car_detected
  else car_detected

/-- How the callers configure the region arguments of `process_cv_detection`
(module setup lines 969-992): either `use_full_frame`, or explicit
coordinates with `roi_x..roi_h` all set, or all-`None` coordinates with the
point/quadrant parameters set. -/
inductive RoiSpec where
  | fullFrame
  | coords (x y w h : Int)
  | pointQuadrant (px py q : Int)
deriving DecidableEq, Repr

/-- Extract `frame[y:y+h, x:x+w]` (line 1192); the slice bounds are the
already-clamped ROI, hence non-negative. -/
def extract_roi (frame : Frame) (x y w h : Int) : Frame :=
  { height := h.toNat
    width := w.toNat
    data := ((frame.data.drop y.toNat).take h.toNat).map fun row =>
      (row.drop x.toNat).take w.toNat }

/-- The 4-tuple returned by `process_cv_detection`
`(car_detected, detections, frame_size, frame_hash)`. -/
structure CVResult where
  carDetected : Bool
  detections : Option Dets
  frameSize : Nat × Nat
  frameHash : Option Nat
deriving DecidableEq, Repr

/-- The model call: `yolo_model(detection_frame, conf=...)` may raise, which
the enclosing `try` of `process_cv_detection` turns into the error return. -/
abbrev YoloModel := Frame → Rat → Except Unit Dets

/-- `compute_frame_hash` (lines 1103-1127): the cv2 grayscale/resize plus md5
digest is an opaque external computation, modelled by the parameter
`hashImpl`; its internal `try/except` means a failure yields `none` rather
than an exception. -/
abbrev HashImpl := Frame → Option Nat

/-- Lines 1162-1194 of `process_cv_detection`: determine the detection region
(`detection_frame`) and its size, clamping configured coordinates — and, in
point+quadrant mode, first resolving the quadrant — against the frame. -/
def detection_region (frame : Frame) (roi : RoiSpec) : Frame × (Nat × Nat) :=
  match roi with
  | .fullFrame => (frame, (frame.width, frame.height))
  | .coords x y w h =>
      let (x, y, w, h) := clamp_roi x y w h (Int.ofNat frame.width) (Int.ofNat frame.height)
      (extract_roi frame x y w h, (w.toNat, h.toNat))
  | .pointQuadrant px py q =>
      let (x, y, w, h) := calculate_roi_from_point_quadrant px py q
        (Int.ofNat frame.width) (Int.ofNat frame.height)
      let (x, y, w, h) := clamp_roi x y w h (Int.ofNat frame.width) (Int.ofNat frame.height)
      (extract_roi frame x y w h, (w.toNat, h.toNat))

/-- `process_cv_detection` (lines 1129-1253).  Region selection and clamping,
frame-hash cache lookup (with the `cached_frame_size == frame_size` guard),
YOLO invocation with trigger-class scan, temporal smoothing, and the
`except` path returning `(False, None, (frame_w, frame_h), None)` when the
model call raises. -/
def process_cv_detection (hashImpl : HashImpl) (now : Rat)
    (frame : Frame) (roi : RoiSpec)
    (yolo_model : Option YoloModel) (confidence_threshold : Rat)
    (last_frame_hash : Option Nat)
    (last_frame_detection_result : Option (Bool × Option Dets × (Nat × Nat)))
    (last_car_detection_time : Option Rat)
    (temporal_smoothing_window : Rat) : CVResult :=
  -- lines 1162-1194: determine the detection region
  let detection_frame := (detection_region frame roi).1
  let frame_size := (detection_region frame roi).2
  -- line 1197: hash of the current region
  let current_frame_hash := hashImpl detection_frame
  -- lines 1200-1208: cache hit when hashes match and the cached size agrees
  let cached :=
    match current_frame_hash, last_frame_hash, last_frame_detection_result with
    | some ch, some lh, some (car, dets, csz) =>
        if ch = lh ∧ csz = frame_size then
          some (⟨car, dets, frame_size, some ch⟩ : CVResult)
        else none
    | _, _, _ => none
  match cached with
  | some r => r
  | none =>
    -- lines 1211-1234: run the model and scan for trigger classes
    let modelOutcome : Except Unit (Bool × Option Dets) :=
      match yolo_model with
      | none => .ok (false, none)
      | some m =>
          match m detection_frame confidence_threshold with
          | .error e => .error e
          | .ok results => .ok (triggered_by results, some results)
    match modelOutcome with
    | .error _ =>
        -- lines 1247-1253: except path
        ⟨false, none, frame_size, none⟩
    | .ok (car_detected, detections) =>
        -- lines 1236-1245: temporal smoothing
        let car_detected :=
          temporal_smoothing car_detected last_car_detection_time now
            temporal_smoothing_window
        ⟨car_detected, detections, frame_size, current_frame_hash⟩

/-- The module-level shared state mutated by the CV thread and the main loop
(lines 1066-1078): cache, smoothing timestamp, published detection slot,
history buffer, the in-flight flag and the last scheduler run time. -/
structure SharedState where
  lastFrameHash : Option Nat
  lastFrameDetectionResult : Option (Bool × Option Dets × (Nat × Nat))
  lastFrameHashTime : Option Rat
  lastCarDetectionTime : Option Rat
  latestDetections : Option Dets
  latestDetectionFrameSize : Option (Nat × Nat)
  carHistory : List Bool
  cvProcessing : Bool
  lastCvTime : Rat
deriving DecidableEq, Repr

/-- `car_history.append(v)` followed by `if len > history_size: pop(0)`
(lines 1391-1393 and 1693-1695). -/
def push_history (h : List Bool) (v : Bool) (history_size : Nat) : List Bool :=
  let h := h ++ [v]
  if history_size < h.length then h.tail else h

/-- Observable steps of one CV thread body, in program order. -/
inductive CVEvent where
  | updateCache
  | updateTimestamp
  | publishSlot
  | appendHistory
  | clearInFlight
deriving DecidableEq, Repr

/-- `cv_processing_thread` (lines 1321-1402): run the detection on the
snapshotted cache state, then (1) update frame cache and smoothing timestamp
when the hash is non-null, (2) publish detections plus region size into the
shared slot, (3) append to the history; any exception (here: a failing
publish, injected by `publish_fails`) jumps to the `except` handler, and the
`finally` clears `cv_processing` in every case.  Alongside the final state,
the trace of executed steps is returned. -/
def cv_processing_thread (hashImpl : HashImpl) (now : Rat)
    (frame : Frame) (roi : RoiSpec)
    (yolo_model : Option YoloModel) (confidence_threshold : Rat)
    (history_size : Nat) (temporal_smoothing_window : Rat)
    (publish_fails : Bool) (st : SharedState) : SharedState × List CVEvent :=
  let r := process_cv_detection hashImpl now frame roi yolo_model
    confidence_threshold st.lastFrameHash st.lastFrameDetectionResult
    st.lastCarDetectionTime temporal_smoothing_window
  -- lines 1362-1377: cache and smoothing-timestamp update
  let st1 :=
    if r.frameHash.isSome then
      { st with
        lastFrameHash := r.frameHash
        lastFrameDetectionResult := some (r.carDetected, r.detections, r.frameSize)
        lastFrameHashTime := some now
        lastCarDetectionTime :=
          if r.carDetected then some now else st.lastCarDetectionTime }
    else st
  let tr1 :=
    if r.frameHash.isSome then
      CVEvent.updateCache ::
        (if r.carDetected then [CVEvent.updateTimestamp] else [])
    else []
  if publish_fails then
    -- lines 1399-1402: except handler logs, finally clears the flag
    ({ st1 with cvProcessing := false }, tr1 ++ [CVEvent.clearInFlight])
  else
    -- lines 1379-1386: publish into the shared slot
    let st2 := { st1 with
      latestDetections := r.detections
      latestDetectionFrameSize := some r.frameSize }
    -- lines 1388-1398: append to the history buffer
    let st3 := { st2 with
      carHistory := push_history st2.carHistory r.carDetected history_size }
    ({ st3 with cvProcessing := false },
      tr1 ++ [CVEvent.publishSlot, CVEvent.appendHistory, CVEvent.clearInFlight])

/-- One iteration of the main loop's scheduling section (lines 1616-1699, in
the threaded configuration): compute `cv_should_run`, dispatch the background
thread when a frame is available (recording `last_cv_time` and setting the
in-flight flag before the dispatch), or, with no frame, advance
`last_cv_time` and append `False` to the history.  The returned `Bool` says
whether a detection was dispatched this tick. -/
def main_loop_tick (now : Rat) (cv_interval : Rat) (frame : Option Frame)
    (history_size : Nat) (st : SharedState) : SharedState × Bool :=
  let cv_should_run := decide (cv_interval ≤ now - st.lastCvTime) && !st.cvProcessing
  if cv_should_run && frame.isSome then
    ({ st with lastCvTime := now, cvProcessing := true }, true)
  else if cv_should_run then
    ({ st with
        lastCvTime := now
        carHistory := push_history st.carHistory false history_size }, false)
  else (st, false)

/-- Iterate `main_loop_tick` over a list of `(now, frame)` ticks, counting
dispatched detections. -/
def run_ticks (cv_interval : Rat) (history_size : Nat) :
    List (Rat × Option Frame) → SharedState → SharedState × Nat
  | [], st => (st, 0)
  | t :: ts, st =>
      let s := main_loop_tick t.1 cv_interval t.2 history_size st
      let rest := run_ticks cv_interval history_size ts s.1
      (rest.1, (if s.2 then 1 else 0) + rest.2)

/-- Modelled from the spec: the hysteresis `currentState()` evaluation of the
history buffer against `car_present_threshold` / `car_absent_threshold` is
not part of this source file — the thresholds are read (lines 1054-1056) and
passed to `cv_processing_thread`, whose docstring (lines 1333-1334) says they
"are applied later when evaluating the car_history buffer", but no code here
performs that evaluation.  Per the spec: `present` becomes true when the
count of `true` entries in history is at least `presentThreshold`, becomes
false when that count is at most `absentThreshold`, and between the two
thresholds the previously returned state persists. -/
def currentState (history : List Bool) (present_threshold absent_threshold : Nat)
    (prev : Bool) : Bool :=
  let c := history.count true
  if present_threshold ≤ c then true
  else if c ≤ absent_threshold then false
  else prev

/-! ## Helper lemmas -/

lemma process_cache_size_mismatch (hi : HashImpl) (now : Rat) (frame : Frame) (roi : RoiSpec)
    (m : Option YoloModel) (conf : Rat) (lfh : Option Nat) (car : Bool) (dets : Option Dets)
    (sz : Nat × Nat) (lct : Option Rat) (w : Rat)
    (hsz : sz ≠ (detection_region frame roi).2) :
    process_cv_detection hi now frame roi m conf lfh (some (car, dets, sz)) lct w =
      process_cv_detection hi now frame roi m conf lfh none lct w := by
  unfold process_cv_detection
  rcases hch : hi (detection_region frame roi).1 with _ | ch <;>
    rcases lfh with _ | lh <;> simp [hch, hsz]

lemma cv_thread_timestamp (hi : HashImpl) (now : Rat) (frame : Frame) (roi : RoiSpec)
    (m : Option YoloModel) (conf : Rat) (hs : Nat) (w : Rat) (pf : Bool) (st : SharedState) :
    ((cv_processing_thread hi now frame roi m conf hs w pf st).1).lastCarDetectionTime =
      (if (process_cv_detection hi now frame roi m conf st.lastFrameHash
            st.lastFrameDetectionResult st.lastCarDetectionTime w).frameHash.isSome
          && (process_cv_detection hi now frame roi m conf st.lastFrameHash
            st.lastFrameDetectionResult st.lastCarDetectionTime w).carDetected
       then some now else st.lastCarDetectionTime) := by
  unfold cv_processing_thread
  cases pf <;>
    by_cases h1 : (process_cv_detection hi now frame roi m conf st.lastFrameHash
      st.lastFrameDetectionResult st.lastCarDetectionTime w).frameHash.isSome <;>
    by_cases h2 : (process_cv_detection hi now frame roi m conf st.lastFrameHash
      st.lastFrameDetectionResult st.lastCarDetectionTime w).carDetected <;>
    simp [h1, h2]

lemma cv_thread_clears_flag (hi : HashImpl) (now : Rat) (frame : Frame) (roi : RoiSpec)
    (m : Option YoloModel) (conf : Rat) (hs : Nat) (w : Rat) (pf : Bool) (st : SharedState) :
    ((cv_processing_thread hi now frame roi m conf hs w pf st).1).cvProcessing = false := by
  unfold cv_processing_thread
  cases pf <;> simp

lemma cv_thread_cache_fields (hi : HashImpl) (now : Rat) (frame : Frame) (roi : RoiSpec)
    (m : Option YoloModel) (conf : Rat) (hs : Nat) (w : Rat) (pf : Bool) (st : SharedState) :
    ((cv_processing_thread hi now frame roi m conf hs w pf st).1).lastFrameHash =
      (if (process_cv_detection hi now frame roi m conf st.lastFrameHash
            st.lastFrameDetectionResult st.lastCarDetectionTime w).frameHash.isSome
       then (process_cv_detection hi now frame roi m conf st.lastFrameHash
            st.lastFrameDetectionResult st.lastCarDetectionTime w).frameHash
       else st.lastFrameHash) ∧
    ((cv_processing_thread hi now frame roi m conf hs w pf st).1).lastFrameDetectionResult =
      (if (process_cv_detection hi now frame roi m conf st.lastFrameHash
            st.lastFrameDetectionResult st.lastCarDetectionTime w).frameHash.isSome
       then some ((process_cv_detection hi now frame roi m conf st.lastFrameHash
              st.lastFrameDetectionResult st.lastCarDetectionTime w).carDetected,
            (process_cv_detection hi now frame roi m conf st.lastFrameHash
              st.lastFrameDetectionResult st.lastCarDetectionTime w).detections,
            (process_cv_detection hi now frame roi m conf st.lastFrameHash
              st.lastFrameDetectionResult st.lastCarDetectionTime w).frameSize)
       else st.lastFrameDetectionResult) := by
  unfold cv_processing_thread
  cases pf <;>
    by_cases h1 : (process_cv_detection hi now frame roi m conf st.lastFrameHash
      st.lastFrameDetectionResult st.lastCarDetectionTime w).frameHash.isSome <;>
    simp [h1]

lemma cv_thread_history (hi : HashImpl) (now : Rat) (frame : Frame) (roi : RoiSpec)
    (m : Option YoloModel) (conf : Rat) (hs : Nat) (w : Rat) (pf : Bool) (st : SharedState) :
    ((cv_processing_thread hi now frame roi m conf hs w pf st).1).carHistory =
      (if pf then st.carHistory
       else push_history st.carHistory
        (process_cv_detection hi now frame roi m conf st.lastFrameHash
          st.lastFrameDetectionResult st.lastCarDetectionTime w).carDetected hs) := by
  unfold cv_processing_thread
  cases pf <;>
    by_cases h1 : (process_cv_detection hi now frame roi m conf st.lastFrameHash
      st.lastFrameDetectionResult st.lastCarDetectionTime w).frameHash.isSome <;>
    simp [h1]

lemma cv_thread_trace (hi : HashImpl) (now : Rat) (frame : Frame) (roi : RoiSpec)
    (m : Option YoloModel) (conf : Rat) (hs : Nat) (w : Rat) (pf : Bool) (st : SharedState) :
    (cv_processing_thread hi now frame roi m conf hs w pf st).2 =
      (if (process_cv_detection hi now frame roi m conf st.lastFrameHash
            st.lastFrameDetectionResult st.lastCarDetectionTime w).frameHash.isSome
       then CVEvent.updateCache ::
        (if (process_cv_detection hi now frame roi m conf st.lastFrameHash
              st.lastFrameDetectionResult st.lastCarDetectionTime w).carDetected
         then [CVEvent.updateTimestamp] else [])
       else []) ++
      (if pf then [CVEvent.clearInFlight]
       else [CVEvent.publishSlot, CVEvent.appendHistory, CVEvent.clearInFlight]) := by
  unfold cv_processing_thread
  cases pf <;>
    by_cases h1 : (process_cv_detection hi now frame roi m conf st.lastFrameHash
      st.lastFrameDetectionResult st.lastCarDetectionTime w).frameHash.isSome <;>
    simp [h1]

lemma process_cache_hit (hi : HashImpl) (now : Rat) (frame : Frame) (roi : RoiSpec)
    (m : Option YoloModel) (conf : Rat) (car : Bool) (dets : Option Dets) (hv : Nat)
    (lct : Option Rat) (w : Rat)
    (hh : hi (detection_region frame roi).1 = some hv) :
    process_cv_detection hi now frame roi m conf (some hv)
        (some (car, dets, (detection_region frame roi).2)) lct w =
      ⟨car, dets, (detection_region frame roi).2, some hv⟩ := by
  unfold process_cv_detection
  simp [hh]

lemma process_frameSize (hi : HashImpl) (now : Rat) (frame : Frame) (roi : RoiSpec)
    (m : Option YoloModel) (conf : Rat) (lfh : Option Nat)
    (lfd : Option (Bool × Option Dets × (Nat × Nat))) (lct : Option Rat) (w : Rat) :
    (process_cv_detection hi now frame roi m conf lfh lfd lct w).frameSize =
      (detection_region frame roi).2 := by
  unfold process_cv_detection
  rcases hch : hi (detection_region frame roi).1 with _ | ch <;>
    rcases lfh with _ | lh <;>
    rcases lfd with _ | ⟨car, dets, csz⟩ <;>
    rcases m with _ | f <;>
    simp [hch] <;>
    first
      | (rcases hf : f (detection_region frame roi).1 conf with e | dets2 <;> simp [hf] <;>
          split_ifs <;> simp)
      | (split_ifs <;> simp)

lemma process_frameHash_some (hi : HashImpl) (now : Rat) (frame : Frame) (roi : RoiSpec)
    (m : Option YoloModel) (conf : Rat) (lfh : Option Nat)
    (lfd : Option (Bool × Option Dets × (Nat × Nat))) (lct : Option Rat) (w : Rat) (hv : Nat)
    (h : (process_cv_detection hi now frame roi m conf lfh lfd lct w).frameHash = some hv) :
    hi (detection_region frame roi).1 = some hv := by
  revert h
  unfold process_cv_detection
  rcases hch : hi (detection_region frame roi).1 with _ | ch <;>
    rcases lfh with _ | lh <;>
    rcases lfd with _ | ⟨car, dets, csz⟩ <;>
    rcases m with _ | f <;>
    simp [hch] <;>
    first
      | (rcases hf : f (detection_region frame roi).1 conf with e | dets2 <;> simp [hf] <;>
          split_ifs <;> simp)
      | (split_ifs <;> simp)

lemma process_model_error (hi : HashImpl) (now : Rat) (frame : Frame) (roi : RoiSpec)
    (conf : Rat) (lfh : Option Nat) (lct : Option Rat) (w : Rat) :
    process_cv_detection hi now frame roi (some fun _ _ => .error ()) conf lfh none lct w =
      ⟨false, none, (detection_region frame roi).2, none⟩ := by
  unfold process_cv_detection
  rcases hch : hi (detection_region frame roi).1 with _ | ch <;>
    rcases lfh with _ | lh <;> simp [hch]

lemma tick_running (now interval : Rat) (frame : Option Frame) (hs : Nat) (st : SharedState)
    (h : st.cvProcessing = true) :
    main_loop_tick now interval frame hs st = (st, false) := by
  simp [main_loop_tick, h]

lemma run_ticks_running (interval : Rat) (hs : Nat) (ticks : List (Rat × Option Frame))
    (st : SharedState) (h : st.cvProcessing = true) :
    run_ticks interval hs ticks st = (st, 0) := by
  induction ticks with
  | nil => rfl
  | cons t ts ih => simp [run_ticks, tick_running _ _ _ _ _ h, ih]

/-! ## Theorems -/

/-- C1: over the recorded history, the derived present state is true when the
count of `true` entries reaches `car_present_threshold`, false when it is at
most `car_absent_threshold`, and equal to the previously returned state when
the count lies strictly between the two thresholds. -/
theorem currentState_hysteresis (st : SharedState)
    (present_threshold absent_threshold : Nat) (prev : Bool)
    (hinv : absent_threshold < present_threshold) :
    (present_threshold ≤ st.carHistory.count true →
      currentState st.carHistory present_threshold absent_threshold prev = true) ∧
    (st.carHistory.count true ≤ absent_threshold →
      currentState st.carHistory present_threshold absent_threshold prev = false) ∧
    (absent_threshold < st.carHistory.count true →
      st.carHistory.count true < present_threshold →
      currentState st.carHistory present_threshold absent_threshold prev = prev) := by
  refine ⟨fun h => ?_, fun h => ?_, fun h1 h2 => ?_⟩
  · simp [currentState, h]
  · have h1 : ¬ present_threshold ≤ st.carHistory.count true := by omega
    simp [currentState, h1, h]
  · have h3 : ¬ present_threshold ≤ st.carHistory.count true := by omega
    have h4 : ¬ st.carHistory.count true ≤ absent_threshold := by omega
    simp [currentState, h3, h4]

/-- Witness for C1 at a concrete state. -/
theorem currentState_hysteresis_witness :
    currentState [true, true, false] 3 1 true = true := by
  have h := currentState_hysteresis
    ⟨none, none, none, none, none, none, [true, true, false], false, 0⟩
    3 1 true (by decide)
  exact h.2.2 (by decide) (by decide)

/-- C7: for frames of width and height at least 1, both region clampings —
the one applied to explicit coordinates inside `process_cv_detection` /
`prepare_display_image`, and the one inside
`calculate_roi_from_point_quadrant` — produce a region with nonnegative
position, positive size, contained in the frame. -/
theorem region_clamp_in_bounds (fw fh : Int) (hfw : 1 ≤ fw) (hfh : 1 ≤ fh) :
    (∀ x y w h : Int,
      0 ≤ (clamp_roi x y w h fw fh).1 ∧
      0 ≤ (clamp_roi x y w h fw fh).2.1 ∧
      (clamp_roi x y w h fw fh).1 + (clamp_roi x y w h fw fh).2.2.1 ≤ fw ∧
      (clamp_roi x y w h fw fh).2.1 + (clamp_roi x y w h fw fh).2.2.2 ≤ fh ∧
      1 ≤ (clamp_roi x y w h fw fh).2.2.1 ∧
      1 ≤ (clamp_roi x y w h fw fh).2.2.2) ∧
    (∀ px py q : Int,
      0 ≤ (calculate_roi_from_point_quadrant px py q fw fh).1 ∧
      0 ≤ (calculate_roi_from_point_quadrant px py q fw fh).2.1 ∧
      (calculate_roi_from_point_quadrant px py q fw fh).1 +
        (calculate_roi_from_point_quadrant px py q fw fh).2.2.1 ≤ fw ∧
      (calculate_roi_from_point_quadrant px py q fw fh).2.1 +
        (calculate_roi_from_point_quadrant px py q fw fh).2.2.2 ≤ fh ∧
      1 ≤ (calculate_roi_from_point_quadrant px py q fw fh).2.2.1 ∧
      1 ≤ (calculate_roi_from_point_quadrant px py q fw fh).2.2.2) := by
  constructor
  · intro x y w h
    simp only [clamp_roi]
    omega
  · intro px py q
    simp only [calculate_roi_from_point_quadrant, ensure_valid_dimensions]
    split <;> omega

/-- Witness for C7 at a concrete frame size and region. -/
theorem region_clamp_in_bounds_witness :
    0 ≤ (clamp_roi (-5) 7 100 100 64 48).1 ∧
    0 ≤ (clamp_roi (-5) 7 100 100 64 48).2.1 ∧
    (clamp_roi (-5) 7 100 100 64 48).1 + (clamp_roi (-5) 7 100 100 64 48).2.2.1 ≤ 64 ∧
    (clamp_roi (-5) 7 100 100 64 48).2.1 + (clamp_roi (-5) 7 100 100 64 48).2.2.2 ≤ 48 ∧
    1 ≤ (clamp_roi (-5) 7 100 100 64 48).2.2.1 ∧
    1 ≤ (clamp_roi (-5) 7 100 100 64 48).2.2.2 :=
  (region_clamp_in_bounds 64 48 (by decide) (by decide)).1 (-5) 7 100 100

/-- C8: quadrant resolution is deterministic in its five arguments; codes
1-4 select, respectively, the rectangle spanned by the point and the
top-right, top-left, bottom-left, bottom-right frame corner, then clamp it;
and any other code yields the same region as code 4. -/
theorem quadrant_resolution (px py fw fh : Int) :
    (∀ px' py' q q' fw' fh', px = px' → py = py' → q = q' → fw = fw' → fh = fh' →
      calculate_roi_from_point_quadrant px py q fw fh =
        calculate_roi_from_point_quadrant px' py' q' fw' fh') ∧
    calculate_roi_from_point_quadrant px py 1 fw fh =
      ensure_valid_dimensions px 0 (fw - px) py fw fh ∧
    calculate_roi_from_point_quadrant px py 2 fw fh =
      ensure_valid_dimensions 0 0 px py fw fh ∧
    calculate_roi_from_point_quadrant px py 3 fw fh =
      ensure_valid_dimensions 0 py px (fh - py) fw fh ∧
    calculate_roi_from_point_quadrant px py 4 fw fh =
      ensure_valid_dimensions px py (fw - px) (fh - py) fw fh ∧
    (∀ q : Int, q ≠ 1 → q ≠ 2 → q ≠ 3 →
      calculate_roi_from_point_quadrant px py q fw fh =
        calculate_roi_from_point_quadrant px py 4 fw fh) := by
  refine ⟨?_, rfl, rfl, rfl, rfl, ?_⟩
  · intro px' py' q q' fw' fh' h1 h2 h3 h4 h5
    subst h1; subst h2; subst h3; subst h4; subst h5; rfl
  · intro q h1 h2 h3
    simp [calculate_roi_from_point_quadrant, h1, h2, h3]

/-- Witness for C8 at concrete inputs: an invalid quadrant code resolves like
quadrant 4. -/
theorem quadrant_resolution_witness :
    calculate_roi_from_point_quadrant 10 20 7 64 48 =
      calculate_roi_from_point_quadrant 10 20 4 64 48 :=
  (quadrant_resolution 10 20 64 48).2.2.2.2.2 7 (by decide) (by decide) (by decide)

/-- C9: with a recorded last positive time `t`, the smoothed value equals the
raw value OR `now - t < window`; concretely, with a 2 s window and a positive
at t = 0, a raw-negative at 1.5 s stays true and at 2.5 s becomes false; and
a window of 0 leaves every raw value unchanged (for a clock that has not run
backwards). -/
theorem temporal_smoothing_spec :
    (∀ (raw : Bool) (t now window : Rat),
      temporal_smoothing raw (some t) now window =
        (raw || decide (now - t < window))) ∧
    temporal_smoothing false (some 0) (3/2) 2 = true ∧
    temporal_smoothing false (some 0) (5/2) 2 = false ∧
    (∀ (raw : Bool) (t now : Rat), t ≤ now →
      temporal_smoothing raw (some t) now 0 = raw) := by
  refine ⟨?_, by norm_num [temporal_smoothing], by norm_num [temporal_smoothing], ?_⟩
  · intro raw t now window
    cases raw
    · by_cases h : now - t < window <;> simp [temporal_smoothing, h]
    · simp [temporal_smoothing]
  · intro raw t now hle
    cases raw
    · have h : ¬ now - t < 0 := by linarith
      simp [temporal_smoothing, h]
    · simp [temporal_smoothing]

/-- Witness for C9: smoothing with window 0 at a concrete time. -/
theorem temporal_smoothing_spec_witness :
    temporal_smoothing false (some 1) 2 0 = false :=
  temporal_smoothing_spec.2.2.2 false 1 2 (by norm_num)

/-- C2 counterexample: a cycle whose model call returns no detections (raw
negative) but whose effective result is made positive by temporal smoothing
(window 2, last positive at 0, now 1) moves the stored last-positive
timestamp from `some 0` to `some 1` — the claim says such a cycle leaves the
timestamp unchanged. -/
theorem smoothing_timestamp_counterexample :
    triggered_by [] = false ∧
    (process_cv_detection (fun _ => some 7) 1 ⟨1, 1, [[0]]⟩ .fullFrame
        (some fun _ _ => .ok []) 0 none none (some 0) 2).carDetected = true ∧
    ((cv_processing_thread (fun _ => some 7) 1 ⟨1, 1, [[0]]⟩ .fullFrame
        (some fun _ _ => .ok []) 0 120 2 false
        ⟨none, none, none, some 0, none, none, [], true, 0⟩).1).lastCarDetectionTime = some 1 ∧
    some (1 : Rat) ≠ some (0 : Rat) := by
  refine ⟨rfl, ?_, ?_, by norm_num⟩
  · norm_num [process_cv_detection, detection_region, temporal_smoothing, triggered_by]
  · norm_num [cv_processing_thread, process_cv_detection, detection_region,
      temporal_smoothing, triggered_by, push_history]

/-- C2 amended: a completed cycle updates the stored last-positive-detection
timestamp to `now` exactly when the cycle's fingerprint is non-null and its
effective (post-smoothing) result is positive — so a raw-negative cycle made
positive by smoothing does update the timestamp; it is left unchanged only
when the effective result is false or the fingerprint is null. -/
theorem smoothing_timestamp_update (hi : HashImpl) (now : Rat) (frame : Frame)
    (roi : RoiSpec) (m : Option YoloModel) (conf : Rat) (hs : Nat) (w : Rat)
    (pf : Bool) (st : SharedState) :
    ((cv_processing_thread hi now frame roi m conf hs w pf st).1).lastCarDetectionTime =
      (if (process_cv_detection hi now frame roi m conf st.lastFrameHash
            st.lastFrameDetectionResult st.lastCarDetectionTime w).frameHash.isSome
          && (process_cv_detection hi now frame roi m conf st.lastFrameHash
            st.lastFrameDetectionResult st.lastCarDetectionTime w).carDetected
       then some now else st.lastCarDetectionTime) :=
  cv_thread_timestamp hi now frame roi m conf hs w pf st

/-- C3: while a detection is in flight, any number of interval ticks
dispatch no further detection and leave the scheduler state unchanged; from
idle, an eligible tick dispatches exactly one detection, recording
`last_cv_time = now` and the in-flight flag before dispatch, so N ticks
during a delayed detection yield exactly one invocation; and the in-flight
flag is cleared when the detection completes, success or failure. -/
theorem scheduler_mutual_exclusion :
    (∀ (interval : Rat) (hs : Nat) (ticks : List (Rat × Option Frame)) (st : SharedState),
      st.cvProcessing = true →
      run_ticks interval hs ticks st = (st, 0)) ∧
    (∀ (interval : Rat) (hs : Nat) (t : Rat) (f : Frame)
        (ticks : List (Rat × Option Frame)) (st : SharedState),
      st.cvProcessing = false → interval ≤ t - st.lastCvTime →
      run_ticks interval hs ((t, some f) :: ticks) st =
        ({ st with lastCvTime := t, cvProcessing := true }, 1)) ∧
    (∀ (hi : HashImpl) (now : Rat) (frame : Frame) (roi : RoiSpec) (m : Option YoloModel)
        (conf : Rat) (hs : Nat) (w : Rat) (pf : Bool) (st : SharedState),
      ((cv_processing_thread hi now frame roi m conf hs w pf st).1).cvProcessing = false) := by
  refine ⟨run_ticks_running, ?_, cv_thread_clears_flag⟩
  intro interval hs t f ticks st h0 hel
  have hd : main_loop_tick t interval (some f) hs st =
      ({ st with lastCvTime := t, cvProcessing := true }, true) := by
    simp [main_loop_tick, h0, hel]
  have hrest := run_ticks_running interval hs ticks
    { st with lastCvTime := t, cvProcessing := true } rfl
  simp [run_ticks, hd, hrest]

/-- Witness for C3: a concrete tick arriving while a detection runs
dispatches nothing. -/
theorem scheduler_mutual_exclusion_witness :
    run_ticks 1 120 [(5, none)]
        ⟨none, none, none, none, none, none, [], true, 0⟩ =
      (⟨none, none, none, none, none, none, [], true, 0⟩, 0) :=
  scheduler_mutual_exclusion.1 1 120 [(5, none)]
    ⟨none, none, none, none, none, none, [], true, 0⟩ rfl

/-- C4 counterexample: when the publication into the shared slot fails, the
history append does not happen (the history stays `[]` although an append
would have produced `[true]`); and on the success path the publication step
precedes the history append, not the other way round as the claim orders
them. -/
theorem completion_order_counterexample :
    ((cv_processing_thread (fun _ => some 7) 1 ⟨1, 1, [[0]]⟩ .fullFrame
        (some fun _ _ => .ok [[⟨2, 1⟩]]) 0 120 0 true
        ⟨none, none, none, none, none, none, [], true, 0⟩).1).carHistory = [] ∧
    ([] : List Bool) ≠ push_history [] true 120 ∧
    (cv_processing_thread (fun _ => some 7) 1 ⟨1, 1, [[0]]⟩ .fullFrame
        (some fun _ _ => .ok [[⟨2, 1⟩]]) 0 120 0 false
        ⟨none, none, none, none, none, none, [], true, 0⟩).2 =
      [CVEvent.updateCache, CVEvent.updateTimestamp, CVEvent.publishSlot,
       CVEvent.appendHistory, CVEvent.clearInFlight] := by
  refine ⟨?_, by norm_num [push_history], ?_⟩ <;>
    norm_num [cv_processing_thread, process_cv_detection, detection_region,
      temporal_smoothing, triggered_by, CAR_STATUS_TRIGGER_CLASSES, push_history]

/-- C4 amended: a completed detection cycle performs, in this order: frame
cache plus smoothing-timestamp update (when the fingerprint is non-null),
then publication of the detection list plus region size into the shared
slot, then the history append; when the publication fails, the except
handler skips the history append and only the in-flight flag is still
cleared. -/
theorem completion_order (hi : HashImpl) (now : Rat) (frame : Frame) (roi : RoiSpec)
    (m : Option YoloModel) (conf : Rat) (hs : Nat) (w : Rat) (st : SharedState) :
    ((cv_processing_thread hi now frame roi m conf hs w false st).2 =
      (if (process_cv_detection hi now frame roi m conf st.lastFrameHash
            st.lastFrameDetectionResult st.lastCarDetectionTime w).frameHash.isSome
       then CVEvent.updateCache ::
        (if (process_cv_detection hi now frame roi m conf st.lastFrameHash
              st.lastFrameDetectionResult st.lastCarDetectionTime w).carDetected
         then [CVEvent.updateTimestamp] else [])
       else []) ++
        [CVEvent.publishSlot, CVEvent.appendHistory, CVEvent.clearInFlight]) ∧
    ((cv_processing_thread hi now frame roi m conf hs w false st).1).carHistory =
      push_history st.carHistory
        (process_cv_detection hi now frame roi m conf st.lastFrameHash
          st.lastFrameDetectionResult st.lastCarDetectionTime w).carDetected hs ∧
    ((cv_processing_thread hi now frame roi m conf hs w true st).1).carHistory =
      st.carHistory ∧
    ((cv_processing_thread hi now frame roi m conf hs w true st).2 =
      (if (process_cv_detection hi now frame roi m conf st.lastFrameHash
            st.lastFrameDetectionResult st.lastCarDetectionTime w).frameHash.isSome
       then CVEvent.updateCache ::
        (if (process_cv_detection hi now frame roi m conf st.lastFrameHash
              st.lastFrameDetectionResult st.lastCarDetectionTime w).carDetected
         then [CVEvent.updateTimestamp] else [])
       else []) ++ [CVEvent.clearInFlight]) ∧
    ((cv_processing_thread hi now frame roi m conf hs w true st).1).cvProcessing = false := by
  refine ⟨?_, ?_, ?_, ?_, cv_thread_clears_flag hi now frame roi m conf hs w true st⟩
  · rw [cv_thread_trace]; simp
  · rw [cv_thread_history]; simp
  · rw [cv_thread_history]; simp
  · rw [cv_thread_trace]; simp

/-- C5 counterexample: an interval tick arriving while a detection is in
flight (`cv_processing = true`) with no frame available is a complete no-op:
`last_cv_time` does not advance to the tick time and no `false` is appended
to the history, contrary to the claim. -/
theorem running_no_frame_tick_counterexample :
    main_loop_tick 10 1 none 120 ⟨none, none, none, none, none, none, [], true, 0⟩ =
      (⟨none, none, none, none, none, none, [], true, 0⟩, false) ∧
    (⟨none, none, none, none, none, none, [], true, 0⟩ : SharedState).lastCvTime ≠ 10 ∧
    (⟨none, none, none, none, none, none, [], true, 0⟩ : SharedState).carHistory ≠
      push_history
        (⟨none, none, none, none, none, none, [], true, 0⟩ : SharedState).carHistory
        false 120 :=
  ⟨by norm_num [main_loop_tick], by norm_num, by norm_num [push_history]⟩

/-- C5 amended: an interval tick with no frame available while NO detection
is in flight (idle, interval elapsed) advances `last_cv_time` and appends
`false` directly to the history, bypassing the detector, frame cache and
temporal smoother. -/
theorem idle_no_frame_tick (now interval : Rat) (hs : Nat) (st : SharedState)
    (hidle : st.cvProcessing = false) (helapsed : interval ≤ now - st.lastCvTime) :
    main_loop_tick now interval none hs st =
      ({ st with lastCvTime := now,
                 carHistory := push_history st.carHistory false hs }, false) := by
  simp [main_loop_tick, hidle, helapsed]

/-- Witness for C5 (amended) at a concrete idle state. -/
theorem idle_no_frame_tick_witness :
    main_loop_tick 10 1 none 120 ⟨none, none, none, none, none, none, [], false, 0⟩ =
      (⟨none, none, none, none, none, none, [false], false, 10⟩, false) := by
  have h := idle_no_frame_tick 10 1 120
    ⟨none, none, none, none, none, none, [], false, 0⟩ rfl
    (by norm_num)
  simpa [push_history] using h

/-- C6: after a first detection cycle whose fingerprint is non-null, a
second cycle on a region with the same fingerprint returns exactly the first
cycle's cached result — for every possible model argument, i.e. without
consulting the detector; and a cached result whose `regionSize` differs from
the current region size is never returned: the lookup behaves as if there
were no cached result. -/
theorem frame_cache_idempotent (hi : HashImpl) (now1 now2 conf window : Rat)
    (frame : Frame) (roi : RoiSpec) (m1 : Option YoloModel) (hs : Nat)
    (st : SharedState) (hv : Nat)
    (hh : (process_cv_detection hi now1 frame roi m1 conf st.lastFrameHash
            st.lastFrameDetectionResult st.lastCarDetectionTime window).frameHash = some hv) :
    (∀ m2 : Option YoloModel,
      process_cv_detection hi now2 frame roi m2 conf
          ((cv_processing_thread hi now1 frame roi m1 conf hs window false st).1).lastFrameHash
          ((cv_processing_thread hi now1 frame roi m1 conf hs window false st).1).lastFrameDetectionResult
          ((cv_processing_thread hi now1 frame roi m1 conf hs window false st).1).lastCarDetectionTime
          window =
        ⟨(process_cv_detection hi now1 frame roi m1 conf st.lastFrameHash
            st.lastFrameDetectionResult st.lastCarDetectionTime window).carDetected,
         (process_cv_detection hi now1 frame roi m1 conf st.lastFrameHash
            st.lastFrameDetectionResult st.lastCarDetectionTime window).detections,
         (process_cv_detection hi now1 frame roi m1 conf st.lastFrameHash
            st.lastFrameDetectionResult st.lastCarDetectionTime window).frameSize,
         (process_cv_detection hi now1 frame roi m1 conf st.lastFrameHash
            st.lastFrameDetectionResult st.lastCarDetectionTime window).frameHash⟩) ∧
    (∀ (m : Option YoloModel) (lfh : Option Nat) (car : Bool) (dets : Option Dets)
        (sz : Nat × Nat) (lct : Option Rat),
      sz ≠ (detection_region frame roi).2 →
      process_cv_detection hi now2 frame roi m conf lfh (some (car, dets, sz)) lct window =
        process_cv_detection hi now2 frame roi m conf lfh none lct window) := by
  constructor
  · intro m2
    have hsz := process_frameSize hi now1 frame roi m1 conf st.lastFrameHash
      st.lastFrameDetectionResult st.lastCarDetectionTime window
    have hhi := process_frameHash_some hi now1 frame roi m1 conf st.lastFrameHash
      st.lastFrameDetectionResult st.lastCarDetectionTime window hv hh
    have hc := cv_thread_cache_fields hi now1 frame roi m1 conf hs window false st
    have h1 : ((cv_processing_thread hi now1 frame roi m1 conf hs window false st).1).lastFrameHash =
        some hv := by
      rw [hc.1, hh]; simp
    have h2 : ((cv_processing_thread hi now1 frame roi m1 conf hs window false st).1).lastFrameDetectionResult =
        some ((process_cv_detection hi now1 frame roi m1 conf st.lastFrameHash
            st.lastFrameDetectionResult st.lastCarDetectionTime window).carDetected,
          (process_cv_detection hi now1 frame roi m1 conf st.lastFrameHash
            st.lastFrameDetectionResult st.lastCarDetectionTime window).detections,
          (detection_region frame roi).2) := by
      rw [hc.2, hh, hsz]; simp [hh]
    rw [h1, h2, process_cache_hit hi now2 frame roi m2 conf _ _ hv _ window hhi, hsz, hh]
  · intro m lfh car dets sz lct hsz
    exact process_cache_size_mismatch hi now2 frame roi m conf lfh car dets sz lct window hsz

/-- Witness for C6 at a concrete frame, hash function and model. -/
theorem frame_cache_idempotent_witness :
    process_cv_detection (fun _ => some 5) 2 ⟨1, 1, [[0]]⟩ .fullFrame none 0
        ((cv_processing_thread (fun _ => some 5) 1 ⟨1, 1, [[0]]⟩ .fullFrame
          (some fun _ _ => .ok []) 0 120 0 false
          ⟨none, none, none, none, none, none, [], true, 0⟩).1).lastFrameHash
        ((cv_processing_thread (fun _ => some 5) 1 ⟨1, 1, [[0]]⟩ .fullFrame
          (some fun _ _ => .ok []) 0 120 0 false
          ⟨none, none, none, none, none, none, [], true, 0⟩).1).lastFrameDetectionResult
        ((cv_processing_thread (fun _ => some 5) 1 ⟨1, 1, [[0]]⟩ .fullFrame
          (some fun _ _ => .ok []) 0 120 0 false
          ⟨none, none, none, none, none, none, [], true, 0⟩).1).lastCarDetectionTime
        0 =
      ⟨(process_cv_detection (fun _ => some 5) 1 ⟨1, 1, [[0]]⟩ .fullFrame
          (some fun _ _ => .ok []) 0 none none none 0).carDetected,
       (process_cv_detection (fun _ => some 5) 1 ⟨1, 1, [[0]]⟩ .fullFrame
          (some fun _ _ => .ok []) 0 none none none 0).detections,
       (process_cv_detection (fun _ => some 5) 1 ⟨1, 1, [[0]]⟩ .fullFrame
          (some fun _ _ => .ok []) 0 none none none 0).frameSize,
       (process_cv_detection (fun _ => some 5) 1 ⟨1, 1, [[0]]⟩ .fullFrame
          (some fun _ _ => .ok []) 0 none none none 0).frameHash⟩ :=
  (frame_cache_idempotent (fun _ => some 5) 1 2 0 0 ⟨1, 1, [[0]]⟩ .fullFrame
    (some fun _ _ => .ok []) 120
    ⟨none, none, none, none, none, none, [], true, 0⟩ 5
    (by norm_num [process_cv_detection, detection_region, temporal_smoothing,
      triggered_by])).1 none

/-- C10: a detection cycle in which the model call raises returns
`triggered = false` with a null fingerprint, and the cycle leaves the frame
cache (last fingerprint and cached result) and the temporal-smoothing
timestamp unchanged, while the presence history still receives the `false`
observation. -/
theorem model_error_cycle (hi : HashImpl) (now : Rat) (frame : Frame) (roi : RoiSpec)
    (conf : Rat) (hs : Nat) (w : Rat) (st : SharedState)
    (hnc : st.lastFrameDetectionResult = none) :
    (process_cv_detection hi now frame roi (some fun _ _ => .error ()) conf
        st.lastFrameHash st.lastFrameDetectionResult st.lastCarDetectionTime w).carDetected =
      false ∧
    (process_cv_detection hi now frame roi (some fun _ _ => .error ()) conf
        st.lastFrameHash st.lastFrameDetectionResult st.lastCarDetectionTime w).frameHash =
      none ∧
    ((cv_processing_thread hi now frame roi (some fun _ _ => .error ()) conf hs w false st).1).lastFrameHash =
      st.lastFrameHash ∧
    ((cv_processing_thread hi now frame roi (some fun _ _ => .error ()) conf hs w false st).1).lastFrameDetectionResult =
      st.lastFrameDetectionResult ∧
    ((cv_processing_thread hi now frame roi (some fun _ _ => .error ()) conf hs w false st).1).lastCarDetectionTime =
      st.lastCarDetectionTime ∧
    ((cv_processing_thread hi now frame roi (some fun _ _ => .error ()) conf hs w false st).1).carHistory =
      push_history st.carHistory false hs := by
  have hp : process_cv_detection hi now frame roi (some fun _ _ => .error ()) conf
      st.lastFrameHash st.lastFrameDetectionResult st.lastCarDetectionTime w =
      ⟨false, none, (detection_region frame roi).2, none⟩ := by
    rw [hnc]
    exact process_model_error hi now frame roi conf st.lastFrameHash st.lastCarDetectionTime w
  have hc := cv_thread_cache_fields hi now frame roi (some fun _ _ => .error ()) conf hs w false st
  have ht := cv_thread_timestamp hi now frame roi (some fun _ _ => .error ()) conf hs w false st
  refine ⟨by rw [hp], by rw [hp], ?_, ?_, ?_, ?_⟩
  · rw [hc.1, hp]; simp
  · rw [hc.2, hp]; simp
  · rw [ht, hp]; simp
  · rw [cv_thread_history, hp]; simp

/-- Witness for C10 at a concrete state and inputs. -/
theorem model_error_cycle_witness :
    ((cv_processing_thread (fun _ => some 3) 1 ⟨1, 1, [[0]]⟩ .fullFrame
        (some fun _ _ => .error ()) 0 120 0 false
        ⟨none, none, none, none, none, none, [], true, 0⟩).1).carHistory =
      push_history [] false 120 :=
  (model_error_cycle (fun _ => some 3) 1 ⟨1, 1, [[0]]⟩ .fullFrame 0 120 0
    ⟨none, none, none, none, none, none, [], true, 0⟩ rfl).2.2.2.2.2

end Parkingcam
